import Mathlib

/-!
# Verification of the eweygewey immediate-mode GUI core

Shallow embedding of the per-frame widget construction / layout engine and the
input-state machine of the eweygewey GUI library, together with theorems that
settle the specification claims against it.

Modelling conventions:
* Go `float32` / `float64` quantities (mouse coordinates, widths, scroll
  offsets, timestamps in seconds) are modelled as `ℚ`.  All concrete inputs
  used in counterexamples are small dyadic values on which `float32`
  arithmetic is exact, so each counterexample evaluation coincides with the
  floating-point run of the source.
* Go `int` values are modelled as `ℤ`, Go `uint32` as `ℕ` with explicit
  `% 2^32` where the source can overflow.
* Go strings are byte slices; they are modelled as `List ℕ` of byte values,
  since the editbox code indexes and slices them by byte.
* Stateful methods are modelled as explicit state-passing functions on record
  types mirroring the Go structs; each definition's doc comment names the
  source function and lines it embeds.
-/

namespace EweyGewey

/-- Mouse button action constants from `src/eweygewey.go` lines 11-16
(`MouseDown`, `MouseUp`, `MouseClick`, `MouseDoubleClick`). -/
inductive MouseAction where
  | down
  | up
  | click
  | doubleClick
  deriving Repr, DecidableEq

/-- Embeds `ClipF32` (`src/eweygewey.go` lines 171-179): clamp `value` into
the closed interval `[lo, hi]`, checking the lower bound first. -/
def ClipF32 (lo hi value : ℚ) : ℚ :=
  if value < lo then lo
  else if value > hi then hi
  else value

/-! ## Slider widgets (`src/window.go`) -/

/-- Embeds the value-update logic of `Window.SliderFloat`
(`src/window.go` lines 697-708).  When the slider is pressed, the mouse
x-delta over the track width is scaled by `max` (the source multiplies
`moveRatio` by `max`, not by `max - min`) and added to the value, then the
result is clamped: first against `max`, then against `min`.  When the slider
is not pressed the value is untouched. -/
def sliderFloatUpdate (pressed : Bool) (value mouseDeltaX sliderW lo hi : ℚ) : ℚ :=
  if pressed then
    let moveFrac := mouseDeltaX / sliderW
    let delta := moveFrac * hi
    let tmp := value + delta
    if tmp > hi then hi
    else if tmp < lo then lo
    else tmp
  else value

/-- Go's `int(f)` conversion for a `float32`/`float64` value truncates toward
zero; over `ℚ` that is the floor for non-negative values and the ceiling for
negative ones. -/
def goTruncToInt (q : ℚ) : ℤ :=
  if q < 0 then ⌈q⌉ else ⌊q⌋

/-- Embeds the value-update logic of `Window.SliderInt`
(`src/window.go` lines 726-737): same shape as `sliderFloatUpdate` but the
candidate value `float32(*value) + delta` is truncated to `int` before the
clamp against `max` and `min`. -/
def sliderIntUpdate (pressed : Bool) (value : ℤ) (mouseDeltaX sliderW : ℚ)
    (lo hi : ℤ) : ℤ :=
  if pressed then
    let moveFrac := mouseDeltaX / sliderW
    let delta := moveFrac * (hi : ℚ)
    let tmp := goTruncToInt ((value : ℚ) + delta)
    if tmp > hi then hi
    else if tmp < lo then lo
    else tmp
  else value

/-- The update formula asserted by the specification for `SliderFloat`:
delta is the mouse x-delta over the track width scaled by `(max - min)`,
and the result is clamped to `[min, max]`. -/
def specSliderFloatUpdate (value mouseDeltaX sliderW lo hi : ℚ) : ℚ :=
  ClipF32 lo hi (value + mouseDeltaX / sliderW * (hi - lo))

/-- One drag-update step for `SliderFloat` driven by a frame input
`(pressed, mouseDeltaX, sliderW)`. -/
def sliderFloatStep (lo hi : ℚ) (value : ℚ) (f : Bool × ℚ × ℚ) : ℚ :=
  sliderFloatUpdate f.1 value f.2.1 f.2.2 lo hi

/-- One drag-update step for `SliderInt`. -/
def sliderIntStep (lo hi : ℤ) (value : ℤ) (f : Bool × ℚ × ℚ) : ℤ :=
  sliderIntUpdate f.1 value f.2.1 f.2.2 lo hi

lemma sliderFloatUpdate_mem (pressed : Bool) (value dx w lo hi : ℚ)
    (h1 : lo ≤ value) (h2 : value ≤ hi) :
    lo ≤ sliderFloatUpdate pressed value dx w lo hi ∧
      sliderFloatUpdate pressed value dx w lo hi ≤ hi := by
  unfold sliderFloatUpdate
  cases pressed with
  | false => exact ⟨h1, h2⟩
  | true =>
    simp only [if_true]
    set tmp := value + dx / w * hi with htmp
    by_cases hhi : tmp > hi
    · simp [hhi, le_refl, h1.trans h2]
    · by_cases hlo : tmp < lo
      · simp [hhi, hlo, le_refl, h1.trans h2]
      · simp [hhi, hlo]
        exact ⟨le_of_not_lt hlo, le_of_not_lt hhi⟩

lemma sliderIntUpdate_mem (pressed : Bool) (value : ℤ) (dx w : ℚ) (lo hi : ℤ)
    (h1 : lo ≤ value) (h2 : value ≤ hi) :
    lo ≤ sliderIntUpdate pressed value dx w lo hi ∧
      sliderIntUpdate pressed value dx w lo hi ≤ hi := by
  unfold sliderIntUpdate
  cases pressed with
  | false => exact ⟨h1, h2⟩
  | true =>
    simp only [if_true]
    set tmp := goTruncToInt ((value : ℚ) + dx / w * (hi : ℚ)) with htmp
    by_cases hhi : tmp > hi
    · simp [hhi, le_refl, h1.trans h2]
    · by_cases hlo : tmp < lo
      · simp [hhi, hlo, le_refl, h1.trans h2]
      · simp [hhi, hlo]
        exact ⟨le_of_not_lt hlo, le_of_not_lt hhi⟩

lemma sliderFloatRun_mem (lo hi : ℚ) (updates : List (Bool × ℚ × ℚ)) :
    ∀ value : ℚ, lo ≤ value → value ≤ hi →
      lo ≤ updates.foldl (sliderFloatStep lo hi) value ∧
        updates.foldl (sliderFloatStep lo hi) value ≤ hi := by
  induction updates with
  | nil => exact fun value h1 h2 => ⟨h1, h2⟩
  | cons f fs ih =>
    intro value h1 h2
    have hstep := sliderFloatUpdate_mem f.1 value f.2.1 f.2.2 lo hi h1 h2
    exact ih _ hstep.1 hstep.2

lemma sliderIntRun_mem (lo hi : ℤ) (updates : List (Bool × ℚ × ℚ)) :
    ∀ value : ℤ, lo ≤ value → value ≤ hi →
      lo ≤ updates.foldl (sliderIntStep lo hi) value ∧
        updates.foldl (sliderIntStep lo hi) value ≤ hi := by
  induction updates with
  | nil => exact fun value h1 h2 => ⟨h1, h2⟩
  | cons f fs ih =>
    intro value h1 h2
    have hstep := sliderIntUpdate_mem f.1 value f.2.1 f.2.2 lo hi h1 h2
    exact ih _ hstep.1 hstep.2

lemma sliderFloatUpdate_eq_clamp (value dx w lo hi : ℚ) (h : lo ≤ hi) :
    sliderFloatUpdate true value dx w lo hi = max lo (min hi (value + dx / w * hi)) := by
  unfold sliderFloatUpdate
  simp only [if_true]
  set tmp := value + dx / w * hi with htmp
  by_cases hhi : tmp > hi
  · rw [if_pos hhi, min_eq_left (le_of_lt hhi), max_eq_right h]
  · rw [if_neg hhi, min_eq_right (le_of_not_lt hhi)]
    by_cases hlo : tmp < lo
    · rw [if_pos hlo, max_eq_left (le_of_lt hlo)]
    · rw [if_neg hlo, max_eq_right (le_of_not_lt hlo)]

lemma sliderIntUpdate_eq_clamp (value : ℤ) (dx w : ℚ) (lo hi : ℤ) (h : lo ≤ hi) :
    sliderIntUpdate true value dx w lo hi =
      max lo (min hi (goTruncToInt ((value : ℚ) + dx / w * (hi : ℚ)))) := by
  unfold sliderIntUpdate
  simp only [if_true]
  set tmp := goTruncToInt ((value : ℚ) + dx / w * (hi : ℚ)) with htmp
  by_cases hhi : tmp > hi
  · rw [if_pos hhi, min_eq_left (le_of_lt hhi), max_eq_right h]
  · rw [if_neg hhi, min_eq_right (le_of_not_lt hhi)]
    by_cases hlo : tmp < lo
    · rw [if_pos hlo, max_eq_left (le_of_lt hlo)]
    · rw [if_neg hlo, max_eq_right (le_of_not_lt hlo)]

/-- C1 counterexample: the claim's formula (delta scaled by `max - min`)
disagrees with the code.  Track width 10, mouse delta 5, range `[10, 20]`,
value 10: the claim predicts `10 + (5/10)*(20-10) = 15`, but `SliderFloat`
computes `10 + (5/10)*20 = 20`. -/
theorem sliderFloat_scales_by_max_not_range :
    sliderFloatUpdate true 10 5 10 10 20 = 20 ∧
      specSliderFloatUpdate 10 5 10 10 20 = 15 ∧
      sliderFloatUpdate true 10 5 10 10 20 ≠ specSliderFloatUpdate 10 5 10 10 20 := by
  refine ⟨by norm_num [sliderFloatUpdate], by norm_num [specSliderFloatUpdate, ClipF32], ?_⟩
  norm_num [sliderFloatUpdate, specSliderFloatUpdate, ClipF32]

/-- C1 (amended): for a pressed `SliderFloat`/`SliderInt` with `min ≤ max`,
the bound value is updated by a delta equal to the mouse x-delta divided by
the track width scaled by `max` (not `max - min`; the int slider additionally
truncates the candidate toward zero), and the result is clamped to
`[min, max]`. -/
theorem slider_update_clamps_delta_scaled_by_max (value dx w lo hi : ℚ)
    (valueI loI hiI : ℤ) (hq : lo ≤ hi) (hz : loI ≤ hiI) :
    sliderFloatUpdate true value dx w lo hi = max lo (min hi (value + dx / w * hi)) ∧
      sliderIntUpdate true valueI dx w loI hiI =
        max loI (min hiI (goTruncToInt ((valueI : ℚ) + dx / w * (hiI : ℚ)))) :=
  ⟨sliderFloatUpdate_eq_clamp value dx w lo hi hq,
   sliderIntUpdate_eq_clamp valueI dx w loI hiI hz⟩

/-- C1 witness: the amended clamp formula evaluated at track width 10,
mouse delta 5, range `[10, 20]`, value 10 (float) and value 3, range
`[0, 8]` (int). -/
theorem slider_update_clamps_delta_scaled_by_max_witness :
    (10 : ℚ) ≤ 20 ∧ (0 : ℤ) ≤ 8 ∧
      sliderFloatUpdate true 10 5 10 10 20 = max 10 (min 20 (10 + 5 / 10 * 20)) ∧
      sliderIntUpdate true 3 5 10 0 8 =
        max 0 (min 8 (goTruncToInt ((3 : ℚ) + 5 / 10 * (8 : ℚ)))) := by
  refine ⟨by norm_num, by norm_num, ?_, ?_⟩
  · exact (slider_update_clamps_delta_scaled_by_max 10 5 10 10 20 3 0 8
      (by norm_num) (by norm_num)).1
  · exact (slider_update_clamps_delta_scaled_by_max 10 5 10 10 20 3 0 8
      (by norm_num) (by norm_num)).2

/-- C9: starting from a bound value within `[min, max]`, after any sequence
of drag updates applied by `SliderFloat` or `SliderInt` the bound value still
satisfies `min ≤ value ≤ max`. -/
theorem slider_value_invariant_under_drag_sequences
    (lo hi v0 : ℚ) (loI hiI w0 : ℤ)
    (updF updI : List (Bool × ℚ × ℚ))
    (hq1 : lo ≤ v0) (hq2 : v0 ≤ hi) (hi1 : loI ≤ w0) (hi2 : w0 ≤ hiI) :
    (lo ≤ updF.foldl (sliderFloatStep lo hi) v0 ∧
        updF.foldl (sliderFloatStep lo hi) v0 ≤ hi) ∧
      (loI ≤ updI.foldl (sliderIntStep loI hiI) w0 ∧
        updI.foldl (sliderIntStep loI hiI) w0 ≤ hiI) :=
  ⟨sliderFloatRun_mem lo hi updF v0 hq1 hq2,
   sliderIntRun_mem loI hiI updI w0 hi1 hi2⟩

/-- C9 witness: a concrete two-step drag run on both sliders staying in
range. -/
theorem slider_value_invariant_under_drag_sequences_witness :
    (0 : ℚ) ≤ 5 ∧ (5 : ℚ) ≤ 10 ∧ (0 : ℤ) ≤ 5 ∧ (5 : ℤ) ≤ 10 ∧
      ((0 : ℚ) ≤ [(true, 100, 10), (true, -3, 10)].foldl (sliderFloatStep 0 10) 5 ∧
        [(true, 100, 10), (true, -3, 10)].foldl (sliderFloatStep 0 10) 5 ≤ 10) ∧
      ((0 : ℤ) ≤ [(true, 100, 10), (true, -3, 10)].foldl (sliderIntStep 0 10) 5 ∧
        [(true, 100, 10), (true, -3, 10)].foldl (sliderIntStep 0 10) 5 ≤ 10) := by
  have h := slider_value_invariant_under_drag_sequences 0 10 5 0 10 5
    [(true, 100, 10), (true, -3, 10)] [(true, 100, 10), (true, -3, 10)]
    (by norm_num) (by norm_num) (by norm_num) (by norm_num)
  exact ⟨by norm_num, by norm_num, by norm_num, by norm_num, h.1, h.2⟩

/-! ## Focus / active-input state machine (`src/unnamed/part_005`) -/

/-- Embeds `textEditState` (`src/unnamed/part_005` lines 20-34): the state of
the widget holding text-edit focus. -/
structure TextEditState where
  ID : String
  CursorOffset : ℤ
  CursorTimer : ℚ
  CharacterShift : ℤ
  deriving Repr, DecidableEq

/-- The fragment of `Manager` (`src/unnamed/part_005` lines 37-134) that the
focus claims read and write: `activeInputID`, `activeTextEdit`, and the
primary mouse button's memoized action for the current frame
(`GetMouseButtonAction(0)` returns the same value on every poll within one
frame; `ClearMouseButtonAction(0)` resets it to `MouseUp`).  The key-event
buffer lives in the input adapter and is modelled separately; clearing it
does not affect these fields. -/
structure ManagerState where
  activeInputID : String
  activeTextEdit : Option TextEditState
  mouseAction0 : MouseAction
  deriving Repr, DecidableEq

/-- Embeds `Manager.SetActiveInputID` (`src/unnamed/part_005` lines 287-300):
the claim succeeds iff `activeInputID` is empty or the primary button's
action is not `MouseDown`; on success the id is stored and, if a text editor
is active under a different id, it is cleared. -/
def SetActiveInputID (ui : ManagerState) (id : String) : Bool × ManagerState :=
  if ui.activeInputID = "" ∨ ui.mouseAction0 ≠ MouseAction.down then
    let ui1 : ManagerState := { ui with activeInputID := id }
    let ui2 : ManagerState :=
      match ui1.activeTextEdit with
      | some ate =>
          if ui1.activeInputID ≠ ate.ID then { ui1 with activeTextEdit := none } else ui1
      | none => ui1
    (true, ui2)
  else
    (false, ui)

/-- Embeds `Manager.ClearActiveInputID` (`src/unnamed/part_005` lines 308-310). -/
def ClearActiveInputID (ui : ManagerState) : ManagerState :=
  { ui with activeInputID := "" }

/-- Embeds `Manager.setActiveTextEditor` (`src/unnamed/part_005` lines
314-330): succeeds only when no text editor is active; stores the id and
cursor position with a zeroed timer and shift.  The `ClearKeyEvents` call on
success only empties the input adapter's key buffer, which is outside this
record. -/
def setActiveTextEditor (ui : ManagerState) (id : String) (cursorPos : ℤ) :
    Bool × ManagerState :=
  match ui.activeTextEdit with
  | some _ => (false, ui)
  | none =>
      (true, { ui with activeTextEdit := some ⟨id, cursorPos, 0, 0⟩ })

/-- Embeds `Manager.clearActiveTextEditor` (`src/unnamed/part_005` lines
338-340). -/
def clearActiveTextEditor (ui : ManagerState) : ManagerState :=
  { ui with activeTextEdit := none }

/-- Embeds the focus-release step of `Manager.Construct`
(`src/unnamed/part_005` lines 364-366): if the primary button's action is not
`MouseDown`, the active input id is cleared. -/
def constructFocusRelease (ui : ManagerState) : ManagerState :=
  if ui.mouseAction0 ≠ MouseAction.down then ClearActiveInputID ui else ui

/-- Embeds the focus-claim fragment of `Window.Editbox` (`src/window.go`
lines 1087-1098): with the button not up and the widget not already the
active input, a mouse-down position inside the editbox rectangle triggers
`SetActiveInputID` (whose result is discarded by the source) followed by
`setActiveTextEditor`.  `(mdx, mdy)` is `GetMouseDownPosition(0)`; the
rectangle is `pos` with extents `ebW × ebH`. -/
def editboxFocusClaim (ui : ManagerState) (id : String)
    (mdx mdy posX posY ebW ebH : ℚ) : ManagerState :=
  if ui.mouseAction0 ≠ MouseAction.up then
    if ui.activeInputID ≠ id then
      if mdx > posX ∧ mdy > posY - ebH ∧ mdx < posX + ebW ∧ mdy < posY then
        let ui1 := (SetActiveInputID ui id).2
        (setActiveTextEditor ui1 id 0).2
      else ui
    else ui
  else ui

/-- Embeds the focus logic of `Window.sliderHitTest` (`src/window.go` lines
887-902): with the button not up, a slider is pressed when it already holds
the active input id, or when the mouse-down position lies inside its
rectangle and `SetActiveInputID` succeeds. -/
def sliderFocusClaim (ui : ManagerState) (id : String)
    (mdx mdy posX posY sW sH : ℚ) : Bool × ManagerState :=
  if ui.mouseAction0 ≠ MouseAction.up then
    if ui.activeInputID = id then (true, ui)
    else if mdx > posX ∧ mdy > posY - sH ∧ mdx < posX + sW ∧ mdy < posY then
      let r := SetActiveInputID ui id
      if r.1 then (true, r.2) else (false, r.2)
    else (false, ui)
  else (false, ui)

/-- C2: `SetActiveInputID(id)` returns true and stores `id` iff the active
input id is empty or the primary button's action this frame is not `Down`;
otherwise it returns false and leaves the whole state unchanged. -/
theorem setActiveInputID_claim_rule (ui : ManagerState) (id : String) :
    (((SetActiveInputID ui id).1 = true ∧ (SetActiveInputID ui id).2.activeInputID = id) ↔
        (ui.activeInputID = "" ∨ ui.mouseAction0 ≠ MouseAction.down)) ∧
      ((SetActiveInputID ui id).1 = false → (SetActiveInputID ui id).2 = ui) := by
  unfold SetActiveInputID
  by_cases h : ui.activeInputID = "" ∨ ui.mouseAction0 ≠ MouseAction.down
  · rw [if_pos h]
    constructor
    · constructor
      · intro _; exact h
      · intro _
        refine ⟨rfl, ?_⟩
        cases hat : ui.activeTextEdit with
        | none => rfl
        | some ate =>
            by_cases hid : id ≠ ate.ID
            · simp [hat, hid]
            · simp [hat, hid]
    · intro hfalse; cases hfalse
  · rw [if_neg h]
    constructor
    · constructor
      · intro hcl; exact absurd hcl.1 (by simp)
      · intro hcond; exact absurd hcond h
    · intro _; rfl

/-- C2 witness: the claim rule evaluated at an unclaimed state during a
mouse-down frame. -/
theorem setActiveInputID_claim_rule_witness :
    (((SetActiveInputID ⟨"", none, MouseAction.down⟩ "x").1 = true ∧
        (SetActiveInputID ⟨"", none, MouseAction.down⟩ "x").2.activeInputID = "x") ↔
      ((⟨"", none, MouseAction.down⟩ : ManagerState).activeInputID = "" ∨
        (⟨"", none, MouseAction.down⟩ : ManagerState).mouseAction0 ≠ MouseAction.down)) ∧
      ((SetActiveInputID ⟨"", none, MouseAction.down⟩ "x").1 = false →
        (SetActiveInputID ⟨"", none, MouseAction.down⟩ "x").2 =
          ⟨"", none, MouseAction.down⟩) :=
  setActiveInputID_claim_rule ⟨"", none, MouseAction.down⟩ "x"

/-- C3 counterexample: a reachable state violating the at-claim coupling.
During a single mouse-down frame starting unclaimed, a slider at rectangle
`(0,10)`-`(10,0)` claims input focus; an editbox over the same rectangle then
runs its focus claim: its `SetActiveInputID` fails (focus is held and the
button is down) but the source discards that result and claims the text
editor anyway, leaving `activeTextEdit` owned by `"edit"` while
`activeInputID` is `"slider"`. -/
theorem editbox_text_focus_without_input_focus :
    (editboxFocusClaim
        ((sliderFocusClaim ⟨"", none, MouseAction.down⟩ "slider" 5 5 0 10 10 10).2)
        "edit" 5 5 0 10 10 10).activeTextEdit = some ⟨"edit", 0, 0, 0⟩ ∧
      (editboxFocusClaim
        ((sliderFocusClaim ⟨"", none, MouseAction.down⟩ "slider" 5 5 0 10 10 10).2)
        "edit" 5 5 0 10 10 10).activeInputID = "slider" ∧
      ("edit" : String) ≠ "slider" := by
  have h1 : sliderFocusClaim ⟨"", none, MouseAction.down⟩ "slider" 5 5 0 10 10 10 =
      (true, ⟨"slider", none, MouseAction.down⟩) := by
    norm_num [sliderFocusClaim, SetActiveInputID]
    decide
  have h2 : editboxFocusClaim ⟨"slider", none, MouseAction.down⟩ "edit" 5 5 0 10 10 10 =
      ⟨"slider", some ⟨"edit", 0, 0, 0⟩, MouseAction.down⟩ := by
    norm_num [editboxFocusClaim, SetActiveInputID, setActiveTextEditor]
    decide
  simp [h1, h2]

/-- C3 (amended): at most one widget id equals `activeInputID` at any
instant, and whenever a `SetActiveInputID` claim succeeds, any surviving
text-edit focus is owned by the newly stored id (a text editor under a
different id is forcibly cleared).  The original claim's stronger guarantee —
that the text editor's owner always equals `activeInputID` at the moment the
text editor is claimed — does not hold, because `Window.Editbox` claims the
text editor even when its own `SetActiveInputID` call fails. -/
theorem focus_exclusivity_amended (ui : ManagerState) (id a b : String) :
    (a = ui.activeInputID → b = ui.activeInputID → a = b) ∧
      ((SetActiveInputID ui id).1 = true →
        ∀ ate : TextEditState,
          (SetActiveInputID ui id).2.activeTextEdit = some ate → ate.ID = id) := by
  constructor
  · intro ha hb; rw [ha, hb]
  · intro hsucc ate hate
    unfold SetActiveInputID at hsucc hate
    by_cases h : ui.activeInputID = "" ∨ ui.mouseAction0 ≠ MouseAction.down
    · rw [if_pos h] at hate
      simp only at hate
      cases hat : ui.activeTextEdit with
      | none => simp [hat] at hate
      | some ate0 =>
          by_cases hid : id ≠ ate0.ID
          · simp [hat, hid] at hate
          · push_neg at hid
            simp [hat, hid] at hate
            subst hate
            exact hid.symm
    · rw [if_neg h] at hsucc
      cases hsucc

/-- C3 witness: the amended rule applied to a state where a text editor owned
by `"old"` is active and `"new"` successfully claims input focus. -/
theorem focus_exclusivity_amended_witness :
    ((SetActiveInputID ⟨"", some ⟨"old", 0, 0, 0⟩, MouseAction.up⟩ "new").1 = true →
      ∀ ate : TextEditState,
        (SetActiveInputID ⟨"", some ⟨"old", 0, 0, 0⟩, MouseAction.up⟩ "new").2.activeTextEdit =
          some ate → ate.ID = "new") ∧
      ("a" : String) = ("a" : String) :=
  ⟨(focus_exclusivity_amended ⟨"", some ⟨"old", 0, 0, 0⟩, MouseAction.up⟩ "new" "a" "a").2,
   rfl⟩

/-! ## Button behavior (`src/window.go`) -/

/-- Result constants of `buttonBehavior` (`src/window.go` lines 1295-1299):
`buttonNoAction`, `buttonPressed`, `buttonHover`. -/
inductive ButtonResult where
  | noAction
  | pressed
  | hover
  deriving Repr, DecidableEq

/-- Embeds `Window.buttonBehavior` (`src/window.go` lines 1306-1329).
`(mx, my)` is the mouse position, `(mdx, mdy)` the mouse-down position of
button 0; the widget rectangle has top-left `(minX, minY)` and extents
`width × height`.  A `Click` action inside yields `pressed`; `Up` inside
yields `hover`; otherwise (button down or double-click) the widget reports
`hover` and attempts to claim input focus when the press began inside it. -/
def buttonBehavior (ui : ManagerState) (id : String)
    (mx my mdx mdy minX minY width height : ℚ) : ButtonResult × ManagerState :=
  if mx > minX ∧ my > minY - height ∧ mx < minX + width ∧ my < minY then
    if ui.mouseAction0 = MouseAction.click then (ButtonResult.pressed, ui)
    else if ui.mouseAction0 = MouseAction.up then (ButtonResult.hover, ui)
    else
      if mdx > minX ∧ mdy > minY - height ∧ mdx < minX + width ∧ mdy < minY then
        (ButtonResult.hover, (SetActiveInputID ui id).2)
      else (ButtonResult.noAction, ui)
  else (ButtonResult.noAction, ui)

/-- Embeds `ClearMouseButtonAction` (`src/unnamed/part_000` lines 158-167) as
observed through the current frame: the tracker's `lastAction` is set to
`MouseUp`, so every later `GetMouseButtonAction(0)` poll this frame returns
`MouseUp` via the per-frame memoization. -/
def clearMouseButtonActionFrame (ui : ManagerState) : ManagerState :=
  { ui with mouseAction0 := MouseAction.up }

/-- Embeds the hit-test/press logic of `Window.Button` (`src/window.go`
lines 653-687), omitting the geometry emission: the widget reports pressed
exactly when `buttonBehavior` returns `buttonPressed`, in which case it
clears the tracked mouse button action. -/
def Button (ui : ManagerState) (id : String)
    (mx my mdx mdy minX minY width height : ℚ) : Bool × ManagerState :=
  let r := buttonBehavior ui id mx my mdx mdy minX minY width height
  if r.1 = ButtonResult.pressed then (true, clearMouseButtonActionFrame r.2)
  else (false, r.2)

/-- C5 counterexample: two buttons `"A"` then `"B"` over the same rectangle
`(0,10)`-`(10,0)` in a frame whose click completed at `(5,5)`.  `"A"` reports
pressed and clears the button action to `Up`; `"B"`, with the mouse still
inside it, then observes `buttonHover` — not `buttonNoAction` as the claim
states. -/
theorem second_button_sees_hover_not_noAction :
    (Button ⟨"", none, MouseAction.click⟩ "A" 5 5 5 5 0 10 10 10).1 = true ∧
      (buttonBehavior
        (Button ⟨"", none, MouseAction.click⟩ "A" 5 5 5 5 0 10 10 10).2
        "B" 5 5 5 5 0 10 10 10).1 = ButtonResult.hover ∧
      ButtonResult.hover ≠ ButtonResult.noAction := by
  have hA : Button ⟨"", none, MouseAction.click⟩ "A" 5 5 5 5 0 10 10 10 =
      (true, ⟨"", none, MouseAction.up⟩) := by
    norm_num [Button, buttonBehavior, clearMouseButtonActionFrame]
  have hB : buttonBehavior ⟨"", none, MouseAction.up⟩ "B" 5 5 5 5 0 10 10 10 =
      (ButtonResult.hover, ⟨"", none, MouseAction.up⟩) := by
    norm_num [buttonBehavior]
    decide
  simp [hA, hB]

/-- C5 (amended): when two buttons `A` then `B` are processed in the same
frame at overlapping coordinates where a full click completed, only `A`
reports pressed: `A` clears the tracked button action to `Up`, so `B`'s
`buttonBehavior` observes `Up` and returns `buttonHover` (the mouse is inside
`B`), hence `B` does not report pressed. -/
theorem first_button_consumes_click (ui : ManagerState) (idA idB : String)
    (mx my mdx mdy ax ay aw ah bX bY bW bH : ℚ)
    (hclick : ui.mouseAction0 = MouseAction.click)
    (hinA : mx > ax ∧ my > ay - ah ∧ mx < ax + aw ∧ my < ay)
    (hinB : mx > bX ∧ my > bY - bH ∧ mx < bX + bW ∧ my < bY) :
    (Button ui idA mx my mdx mdy ax ay aw ah).1 = true ∧
      (buttonBehavior (Button ui idA mx my mdx mdy ax ay aw ah).2
          idB mx my mdx mdy bX bY bW bH).1 = ButtonResult.hover ∧
      (buttonBehavior (Button ui idA mx my mdx mdy ax ay aw ah).2
          idB mx my mdx mdy bX bY bW bH).1 ≠ ButtonResult.pressed := by
  have hA : Button ui idA mx my mdx mdy ax ay aw ah =
      (true, clearMouseButtonActionFrame ui) := by
    simp [Button, buttonBehavior, hinA, hclick]
  refine ⟨by rw [hA], ?_, ?_⟩ <;>
    simp [hA, buttonBehavior, clearMouseButtonActionFrame, hinB]

/-- C5 witness: the amended statement evaluated at the counterexample's
concrete frame. -/
theorem first_button_consumes_click_witness :
    (Button ⟨"", none, MouseAction.click⟩ "A" 5 5 5 5 0 10 10 10).1 = true ∧
      (buttonBehavior (Button ⟨"", none, MouseAction.click⟩ "A" 5 5 5 5 0 10 10 10).2
          "B" 5 5 5 5 0 10 10 10).1 = ButtonResult.hover ∧
      (buttonBehavior (Button ⟨"", none, MouseAction.click⟩ "A" 5 5 5 5 0 10 10 10).2
          "B" 5 5 5 5 0 10 10 10).1 ≠ ButtonResult.pressed :=
  first_button_consumes_click ⟨"", none, MouseAction.click⟩ "A" "B"
    5 5 5 5 0 10 10 10 0 10 10 10 rfl
    (by norm_num) (by norm_num)

/-! ## Window construct pass: scroll offset (`src/window.go`) -/

/-- Embeds the `ScrollOffset` pipeline of `Window.construct`: the wheel
adjustment of `src/window.go` lines 131-136 (only when scrollable and the
mouse is inside the frame; floored at 0) followed by the end-of-pass
rollback of lines 166-172: with `overflow = totalControlHeightDC -
displayHeight`, a scrollable window with positive overflow and an offset
beyond it is pulled back to `overflow`; otherwise, if overflow is negative
the offset is reset to 0; otherwise it is left as is. -/
def constructScroll (isScrollable mouseInWindow : Bool)
    (scrollOffset wheelDelta totalControlHeightDC displayHeight : ℚ) : ℚ :=
  let so1 :=
    if isScrollable ∧ mouseInWindow then
      let s := scrollOffset - wheelDelta
      if s < 0 then 0 else s
    else scrollOffset
  let overflow := totalControlHeightDC - displayHeight
  if isScrollable ∧ overflow > 0 ∧ so1 > overflow then overflow
  else if overflow < 0 then 0
  else so1

lemma constructScroll_wheel_nonneg (isScrollable mouseInWindow : Bool)
    (off wheel : ℚ) (hoff : 0 ≤ off) :
    0 ≤ (if isScrollable ∧ mouseInWindow then
          let s := off - wheel
          if s < 0 then 0 else s
        else off) := by
  by_cases h : (isScrollable : Prop) ∧ (mouseInWindow : Prop)
  · rw [if_pos h]
    by_cases hs : off - wheel < 0
    · simp [hs]
    · simp only [hs, if_false]
      linarith [le_of_not_lt hs]
  · rw [if_neg h]; exact hoff

/-- C4 counterexample: a scrollable window whose content height exactly
equals the viewport height keeps a stale scroll offset of 450.  The claim's
interval is `[0, max 0 (200 - 200)] = [0, 0]`, and "content fits within the
viewport" holds (200 ≤ 200), yet the construct pass leaves 450: neither
rollback branch fires when the overflow is exactly zero. -/
theorem scroll_offset_survives_exact_fit :
    constructScroll true false 450 0 200 200 = 450 ∧
      ¬(constructScroll true false 450 0 200 200 ≤ max 0 ((200 : ℚ) - 200)) := by
  norm_num [constructScroll]

/-- C4 (amended): for a scrollable window with a non-negative prior scroll
offset, the construct pass resets the offset to exactly 0 whenever the total
content height is strictly below the viewport height, and clamps it into
`[0, totalContentHeight - viewportHeight]` whenever the content strictly
overflows; when the content height equals the viewport height exactly the
offset is left at its wheel-adjusted value. -/
theorem construct_clamps_scroll_offset (mouseIn : Bool)
    (off wheel total disp : ℚ) (hoff : 0 ≤ off) :
    (total < disp → constructScroll true mouseIn off wheel total disp = 0) ∧
      (total > disp →
        0 ≤ constructScroll true mouseIn off wheel total disp ∧
          constructScroll true mouseIn off wheel total disp ≤ total - disp) := by
  have hso1 := constructScroll_wheel_nonneg true mouseIn off wheel hoff
  unfold constructScroll
  set so1 := (if (true : Bool) ∧ mouseIn then
      let s := off - wheel
      if s < 0 then 0 else s
    else off) with hso1def
  constructor
  · intro hlt
    have hovf : total - disp < 0 := by linarith
    have hnot : ¬((true : Bool) ∧ total - disp > 0 ∧ so1 > total - disp) := by
      rintro ⟨-, h2, -⟩; linarith
    rw [if_neg hnot, if_pos hovf]
  · intro hgt
    have hovf : total - disp > 0 := by linarith
    by_cases hbig : so1 > total - disp
    · have hcond : ((true : Bool) : Prop) ∧ total - disp > 0 ∧ so1 > total - disp :=
        ⟨by simp, hovf, hbig⟩
      rw [if_pos hcond]
      exact ⟨le_of_lt hovf, le_refl _⟩
    · have hnot : ¬(((true : Bool) : Prop) ∧ total - disp > 0 ∧ so1 > total - disp) := by
        rintro ⟨-, -, h3⟩; exact hbig h3
      have hnot2 : ¬(total - disp < 0) := by linarith
      rw [if_neg hnot, if_neg hnot2]
      exact ⟨hso1, le_of_not_lt hbig⟩

/-- C4 witness: the specification's Scenario 1 — a scrollable window with
`scrollOffset = 450` whose content shrinks to 150px against a 200px viewport
is reset to offset 0 by the next construct pass. -/
theorem construct_clamps_scroll_offset_witness :
    (0 : ℚ) ≤ 450 ∧ (150 : ℚ) < 200 ∧
      constructScroll true false 450 0 150 200 = 0 := by
  refine ⟨by norm_num, by norm_num, ?_⟩
  exact (construct_clamps_scroll_offset false 450 0 150 200 (by norm_num)).1
    (by norm_num)

/-! ## Input adapter: per-button tracking (`src/unnamed/part_000`) -/

/-- `doubleClickThreshold` (`src/unnamed/part_000` line 82): 0.5 seconds. -/
def doubleClickThreshold : ℚ := 1 / 2

/-- Embeds `mouseButtonData` (`src/unnamed/part_000` lines 15-33) for one
tracked button.  The `lastCheckedAt` memoization field is modelled by
invoking the update step exactly once per frame (repeated polls within a
frame return the stored `lastAction` unchanged). -/
structure MouseButtonData where
  lastPress : ℚ
  lastPressLocation : ℚ × ℚ
  lastAction : MouseAction
  doubleClickDetected : Bool
  deriving Repr, DecidableEq

/-- Embeds the per-frame update of `GetMouseButtonAction`
(`src/unnamed/part_000` lines 97-155) for an already-tracked button on its
first poll in a frame.  `rawDown` is whether GLFW reports `Press`/`Repeat`
(both map to `MouseDown`); `now` is `uiman.FrameStart` in seconds and
`(mx, my)` the mouse position.  An Up-to-Down transition within the
double-click threshold of the previous recorded press arms
`doubleClickDetected`; a Down-to-Up transition reports `MouseDoubleClick`
and disarms the flag when it is armed, else `MouseClick`.  Returns the
action reported this frame and the updated tracker. -/
def mouseButtonStep (mb : MouseButtonData) (rawDown : Bool) (now mx my : ℚ) :
    MouseAction × MouseButtonData :=
  if rawDown then
    if mb.lastAction = MouseAction.up then
      let mb1 :=
        if now - mb.lastPress < doubleClickThreshold then
          { mb with doubleClickDetected := true }
        else mb
      (MouseAction.down,
        { mb1 with
            lastPressLocation := (mx, my)
            lastPress := now
            lastAction := MouseAction.down })
    else
      (MouseAction.down, { mb with lastAction := MouseAction.down })
  else
    if mb.lastAction = MouseAction.down then
      if mb.doubleClickDetected then
        (MouseAction.doubleClick,
          { mb with
              lastAction := MouseAction.doubleClick
              doubleClickDetected := false })
      else
        (MouseAction.click, { mb with lastAction := MouseAction.click })
    else
      (MouseAction.up, { mb with lastAction := MouseAction.up })

/-- Runs `mouseButtonStep` over a list of frames `(rawDown, frameTime)`
(mouse at the origin; the position does not influence the reported action),
collecting the reported actions. -/
def mouseButtonRun (mb : MouseButtonData) :
    List (Bool × ℚ) → List MouseAction × MouseButtonData
  | [] => ([], mb)
  | (raw, t) :: rest =>
      let r := mouseButtonStep mb raw t 0 0
      let rr := mouseButtonRun r.2 rest
      (r.1 :: rr.1, rr.2)

/-- A frame sequence whose Up-to-Down transitions each occur at least the
double-click threshold after the previously recorded press time. -/
def SlowPresses : MouseButtonData → List (Bool × ℚ) → Prop
  | _, [] => True
  | mb, (raw, t) :: rest =>
      (mb.lastAction = MouseAction.up → raw = true →
        doubleClickThreshold ≤ t - mb.lastPress) ∧
      SlowPresses (mouseButtonStep mb raw t 0 0).2 rest

lemma mouseButtonStep_no_double (mb : MouseButtonData) (raw : Bool) (t : ℚ)
    (hflag : mb.doubleClickDetected = false)
    (hslow : mb.lastAction = MouseAction.up → raw = true →
      doubleClickThreshold ≤ t - mb.lastPress) :
    (mouseButtonStep mb raw t 0 0).1 ≠ MouseAction.doubleClick ∧
      (mouseButtonStep mb raw t 0 0).2.doubleClickDetected = false := by
  unfold mouseButtonStep
  cases raw with
  | true =>
    by_cases hup : mb.lastAction = MouseAction.up
    · have hge := hslow hup rfl
      have hnot : ¬(t - mb.lastPress < doubleClickThreshold) := not_lt.mpr hge
      simp [hup, hnot, hflag]
    · simp [hup, hflag]
  | false =>
    by_cases hdown : mb.lastAction = MouseAction.down
    · simp [hdown, hflag]
    · simp [hdown, hflag]

lemma mouseButtonRun_no_double (frames : List (Bool × ℚ)) :
    ∀ mb : MouseButtonData, mb.doubleClickDetected = false →
      SlowPresses mb frames →
      MouseAction.doubleClick ∉ (mouseButtonRun mb frames).1 ∧
        (mouseButtonRun mb frames).2.doubleClickDetected = false := by
  induction frames with
  | nil => intro mb hflag _; exact ⟨by simp [mouseButtonRun], hflag⟩
  | cons f rest ih =>
    intro mb hflag hslow
    obtain ⟨f1, f2⟩ := f
    have hstep := mouseButtonStep_no_double mb f1 f2 hflag hslow.1
    have hrest := ih (mouseButtonStep mb f1 f2 0 0).2 hstep.2 hslow.2
    refine ⟨?_, ?_⟩
    · simp only [mouseButtonRun, List.mem_cons]
      rintro (h | h)
      · exact hstep.1 h.symm
      · exact hrest.1 h
    · simpa [mouseButtonRun] using hrest.2

/-- C6: the double-click protocol of the tracked button state machine.
Part 1: from an idle tracker (last action `Up`, flag clear, last press at
least the threshold in the past), the frame run press(`t0`), release(`t1`),
idle(`t1b`), press(`t2`) with `t2 - t0` below the 0.5s threshold, release
(`t3`) reports `Click` for the first release and `DoubleClick` for the
second, after which the flag is clear again.  Part 2: a run whose
Up-to-Down transitions are each at least 0.5s after the previous recorded
press never reports `DoubleClick`.  Part 3: with the flag clear, a
Down-to-Up transition reports `Click`. -/
theorem double_click_threshold_protocol :
    (∀ (mb : MouseButtonData) (t0 t1 t1b t2 t3 mx my : ℚ),
      mb.lastAction = MouseAction.up →
      mb.doubleClickDetected = false →
      doubleClickThreshold ≤ t0 - mb.lastPress →
      t2 - t0 < doubleClickThreshold →
      ((mouseButtonStep mb true t0 mx my).1 = MouseAction.down ∧
        (mouseButtonStep (mouseButtonStep mb true t0 mx my).2 false t1 mx my).1 =
          MouseAction.click ∧
        (mouseButtonStep
            (mouseButtonStep
              (mouseButtonStep
                (mouseButtonStep (mouseButtonStep mb true t0 mx my).2
                  false t1 mx my).2
                false t1b mx my).2
              true t2 mx my).2
            false t3 mx my).1 = MouseAction.doubleClick ∧
        (mouseButtonStep
            (mouseButtonStep
              (mouseButtonStep
                (mouseButtonStep (mouseButtonStep mb true t0 mx my).2
                  false t1 mx my).2
                false t1b mx my).2
              true t2 mx my).2
            false t3 mx my).2.doubleClickDetected = false)) ∧
    (∀ (mb : MouseButtonData) (frames : List (Bool × ℚ)),
      mb.doubleClickDetected = false → SlowPresses mb frames →
      MouseAction.doubleClick ∉ (mouseButtonRun mb frames).1) ∧
    (∀ (mb : MouseButtonData) (t mx my : ℚ),
      mb.doubleClickDetected = false → mb.lastAction = MouseAction.down →
      (mouseButtonStep mb false t mx my).1 = MouseAction.click) := by
  refine ⟨?_, ?_, ?_⟩
  · intro mb t0 t1 t1b t2 t3 mx my hup hflag hidle hfast
    have hnotfast : ¬(t0 - mb.lastPress < doubleClickThreshold) := not_lt.mpr hidle
    have h0 : mouseButtonStep mb true t0 mx my =
        (MouseAction.down,
          { mb with
              lastPressLocation := (mx, my)
              lastPress := t0
              lastAction := MouseAction.down }) := by
      simp [mouseButtonStep, hup, hnotfast]
    have h1 : mouseButtonStep (mouseButtonStep mb true t0 mx my).2 false t1 mx my =
        (MouseAction.click,
          { mb with
              lastPressLocation := (mx, my)
              lastPress := t0
              lastAction := MouseAction.click }) := by
      rw [h0]
      simp [mouseButtonStep, hflag]
    have h1b : mouseButtonStep (mouseButtonStep
        (mouseButtonStep mb true t0 mx my).2 false t1 mx my).2 false t1b mx my =
        (MouseAction.up,
          { mb with
              lastPressLocation := (mx, my)
              lastPress := t0
              lastAction := MouseAction.up }) := by
      rw [h1]
      simp [mouseButtonStep]
    have h2 : mouseButtonStep (mouseButtonStep (mouseButtonStep
        (mouseButtonStep mb true t0 mx my).2 false t1 mx my).2 false t1b mx my).2
        true t2 mx my =
        (MouseAction.down,
          { mb with
              lastPressLocation := (mx, my)
              lastPress := t2
              lastAction := MouseAction.down
              doubleClickDetected := true }) := by
      rw [h1b]
      simp [mouseButtonStep, hfast]
    have h3 : mouseButtonStep (mouseButtonStep (mouseButtonStep (mouseButtonStep
        (mouseButtonStep mb true t0 mx my).2 false t1 mx my).2 false t1b mx my).2
        true t2 mx my).2 false t3 mx my =
        (MouseAction.doubleClick,
          { mb with
              lastPressLocation := (mx, my)
              lastPress := t2
              lastAction := MouseAction.doubleClick
              doubleClickDetected := false }) := by
      rw [h2]
      simp [mouseButtonStep]
    refine ⟨by rw [h0], by rw [h1], by rw [h3], by rw [h3]⟩
  · intro mb frames hflag hslow
    exact (mouseButtonRun_no_double frames mb hflag hslow).1
  · intro mb t mx my hflag hdown
    simp [mouseButtonStep, hdown, hflag]

/-- C6 witness: part 1 on a tracker idle since time 0, pressed at 10 s and
10.3 s (gap 0.3 s < 0.5 s); part 2 on presses at 10 s and 10.7 s (gaps of
10 s and 0.7 s, both at least 0.5 s). -/
theorem double_click_threshold_protocol_witness :
    ((mouseButtonStep ⟨0, (0, 0), MouseAction.up, false⟩ true 10 0 0).1 =
        MouseAction.down ∧
      (mouseButtonStep (mouseButtonStep ⟨0, (0, 0), MouseAction.up, false⟩
          true 10 0 0).2 false (101/10) 0 0).1 = MouseAction.click ∧
      (mouseButtonStep (mouseButtonStep (mouseButtonStep (mouseButtonStep
          (mouseButtonStep ⟨0, (0, 0), MouseAction.up, false⟩ true 10 0 0).2
          false (101/10) 0 0).2 false (102/10) 0 0).2 true (103/10) 0 0).2
          false (104/10) 0 0).1 = MouseAction.doubleClick ∧
      (mouseButtonStep (mouseButtonStep (mouseButtonStep (mouseButtonStep
          (mouseButtonStep ⟨0, (0, 0), MouseAction.up, false⟩ true 10 0 0).2
          false (101/10) 0 0).2 false (102/10) 0 0).2 true (103/10) 0 0).2
          false (104/10) 0 0).2.doubleClickDetected = false) ∧
      MouseAction.doubleClick ∉
        (mouseButtonRun ⟨0, (0, 0), MouseAction.up, false⟩
          [(true, 10), (false, 102/10), (false, 104/10), (true, 107/10),
            (false, 109/10)]).1 ∧
      (mouseButtonStep ⟨10, (0, 0), MouseAction.down, false⟩ false 11 0 0).1 =
        MouseAction.click := by
  refine ⟨?_, ?_, ?_⟩
  · exact double_click_threshold_protocol.1 ⟨0, (0, 0), MouseAction.up, false⟩
      10 (101/10) (102/10) (103/10) (104/10) 0 0 rfl rfl
      (by norm_num [doubleClickThreshold]) (by norm_num [doubleClickThreshold])
  · refine double_click_threshold_protocol.2.1 ⟨0, (0, 0), MouseAction.up, false⟩
      [(true, 10), (false, 102/10), (false, 104/10), (true, 107/10),
        (false, 109/10)] rfl ?_
    refine ⟨?_, ?_, ?_, ?_, ?_, trivial⟩ <;>
      norm_num [mouseButtonStep, doubleClickThreshold,
        show ¬(MouseAction.click = MouseAction.down) from by decide,
        show ¬(MouseAction.click = MouseAction.up) from by decide,
        show ¬(MouseAction.down = MouseAction.up) from by decide,
        show ¬(MouseAction.up = MouseAction.down) from by decide]
  · exact double_click_threshold_protocol.2.2 ⟨10, (0, 0), MouseAction.down, false⟩
      11 0 0 rfl rfl

/-! ## Editbox text editing (`src/window.go`) -/

/-- UTF-8 encoding of a rune code point, as Go's `string(rune)` conversion
produces it (`src/window.go` line 1162 builds the inserted text this way);
code points below 128 encode as a single byte, below 2048 as two, below
65536 as three, larger ones as four. -/
def utf8Encode (r : ℕ) : List ℕ :=
  if r < 128 then [r]
  else if r < 2048 then [192 + r / 64, 128 + r % 64]
  else if r < 65536 then [224 + r / 4096, 128 + r / 64 % 64, 128 + r % 64]
  else [240 + r / 262144, 128 + r / 4096 % 64, 128 + r / 64 % 64, 128 + r % 64]

/-- Embeds the rune-insertion branch of `Window.Editbox` (`src/window.go`
lines 1160-1164): Go slices the string by bytes at the cursor offset
(`(*value)[:off] + string(rune) + (*value)[off:]`), splicing in the UTF-8
bytes of the rune, then advances `CursorOffset` by one. -/
def editboxInsertRune (value : List ℕ) (off : ℕ) (r : ℕ) : List ℕ × ℕ :=
  (value.take off ++ utf8Encode r ++ value.drop off, off + 1)

/-- Embeds the Backspace branch of `Window.Editbox` (`src/window.go` lines
1125-1131): when `CursorOffset` is positive, the single byte before the
cursor is removed (`(*value)[:off-1] + (*value)[off:]`) and the cursor moves
back one. -/
def editboxBackspace (value : List ℕ) (off : ℕ) : List ℕ × ℕ :=
  if 0 < off then (value.take (off - 1) ++ value.drop off, off - 1)
  else (value, off)

/-- C7 failing input: inserting the two-byte rune U+00E9 into the empty
string at offset 0 yields the bytes `[195, 169]` with the cursor at 1;
Backspace then removes only the byte before the cursor, leaving the stray
continuation byte `[169]` instead of restoring the empty string.  The
round-trip therefore fails for any rune that UTF-8-encodes to more than one
byte, because the cursor counts runes while the slicing counts bytes. -/
theorem editbox_insert_backspace_leaves_stray_byte :
    editboxInsertRune [] 0 233 = ([195, 169], 1) ∧
      editboxBackspace [195, 169] 1 = ([169], 0) ∧
      ([169] : List ℕ) ≠ [] := by
  refine ⟨?_, ?_, by decide⟩ <;> decide

/-! ## Item width requests (`src/window.go`) -/

/-- The width-request fields and horizontal cursor of `Window`
(`src/window.go` lines 73-85): `widgetCursorDC[0]`,
`requestedItemWidthMinDC` and `requestedItemWidthMaxDC`. -/
structure WindowLayout where
  cursorX : ℚ
  requestedItemWidthMinDC : ℚ
  requestedItemWidthMaxDC : ℚ
  deriving Repr, DecidableEq

/-- Embeds `Window.RequestItemWidthMin` (`src/window.go` lines 417-432).
`wndW` is the window width in display space and `padL`/`padR` the left and
right window paddings (`Style.WindowPadding[0]`/`[1]`; the default style
uses 4 and 4): the request fraction is clipped to `[0,1]`, scaled by the
window width minus both paddings, and clipped to the width remaining after
the cursor. -/
def RequestItemWidthMin (w : WindowLayout) (wndW padL padR nextMinWS : ℚ) :
    WindowLayout :=
  let reqMin := ClipF32 0 1 nextMinWS
  let unpaddedWndW := wndW - padL - padR
  let req1 := reqMin * unpaddedWndW
  let req2 := if w.cursorX + req1 > unpaddedWndW then unpaddedWndW - w.cursorX else req1
  { w with requestedItemWidthMinDC := req2 }

/-- Embeds `Window.addCursorHorizontalDelta` (`src/window.go` lines 456-476):
an active (positive) minimum request expands the width and is reset to 0; an
active maximum request shrinks it and is reset to 0; the cursor advances by
the resulting width. -/
def addCursorHorizontalDelta (w : WindowLayout) (hWidth : ℚ) : WindowLayout :=
  let p1 :=
    if w.requestedItemWidthMinDC > 0 then
      ((if w.requestedItemWidthMinDC > hWidth then w.requestedItemWidthMinDC
        else hWidth),
       { w with requestedItemWidthMinDC := 0 })
    else (hWidth, w)
  let p2 :=
    if p1.2.requestedItemWidthMaxDC > 0 then
      ((if p1.2.requestedItemWidthMaxDC < p1.1 then p1.2.requestedItemWidthMaxDC
        else p1.1),
       { p1.2 with requestedItemWidthMaxDC := 0 })
    else (p1.1, p1.2)
  { p2.2 with cursorX := p2.2.cursorX + p2.1 }

/-- C8 counterexample: a 400px-wide window with the default style's 4px
left/right window padding, cursor at the row start (x = 4), no active
maximum request.  `RequestItemWidthMin 0.5` stores `0.5 * (400 - 4 - 4) =
196`, and the following 50px-natural-width widget advances the cursor by
196 — not by 200 as the claim (half the full window width) states. -/
theorem requestItemWidthMin_uses_unpadded_width :
    (addCursorHorizontalDelta (RequestItemWidthMin ⟨4, 0, 0⟩ 400 4 4 (1/2)) 50).cursorX -
        (4 : ℚ) = 196 ∧
      ((196 : ℚ) ≠ 200) := by
  norm_num [addCursorHorizontalDelta, RequestItemWidthMin, ClipF32]

/-- C8 (amended): `RequestItemWidthMin` sets a one-shot minimum-width
request expressed as a fraction of the window width minus the left and right
window paddings.  When the request fraction is within `[0,1]`, the stored
request fits the remaining row width, is positive, and at least the next
widget's natural width, and no maximum request is active, the next widget
that advances the cursor occupies exactly `fraction * (windowWidth - padL -
padR)` pixels and both requests are inactive afterwards.  With the default
4px paddings, `RequestItemWidthMin 0.5` on a 400px window followed by a
50px-natural-width widget advances the cursor by 196px, not 200px. -/
theorem requestItemWidthMin_one_shot_expansion
    (w : WindowLayout) (wndW padL padR f natural : ℚ)
    (hf0 : 0 ≤ f) (hf1 : f ≤ 1)
    (hfit : w.cursorX + f * (wndW - padL - padR) ≤ wndW - padL - padR)
    (hpos : 0 < f * (wndW - padL - padR))
    (hnat : natural ≤ f * (wndW - padL - padR))
    (hmax : w.requestedItemWidthMaxDC = 0) :
    (addCursorHorizontalDelta (RequestItemWidthMin w wndW padL padR f) natural).cursorX =
        w.cursorX + f * (wndW - padL - padR) ∧
      (addCursorHorizontalDelta
        (RequestItemWidthMin w wndW padL padR f) natural).requestedItemWidthMinDC = 0 ∧
      (addCursorHorizontalDelta
        (RequestItemWidthMin w wndW padL padR f) natural).requestedItemWidthMaxDC = 0 := by
  have hclip : ClipF32 0 1 f = f := by
    unfold ClipF32
    rw [if_neg (not_lt.mpr hf0), if_neg (not_lt.mpr hf1)]
  have hreq : RequestItemWidthMin w wndW padL padR f =
      { w with requestedItemWidthMinDC := f * (wndW - padL - padR) } := by
    simp only [RequestItemWidthMin, hclip]
    rw [if_neg (not_lt.mpr hfit)]
  rw [hreq]
  unfold addCursorHorizontalDelta
  by_cases hexp : f * (wndW - padL - padR) > natural
  · simp only [hpos, if_pos, hexp, hmax]
    norm_num [hmax]
  · have heq : natural = f * (wndW - padL - padR) :=
      le_antisymm hnat (le_of_not_lt hexp)
    simp only [hpos, if_pos, hexp, if_neg, hmax]
    norm_num [hmax, heq]

/-- C8 witness: the amended statement at the 400px window, default paddings,
fraction `1/2`, natural width 50 — the cursor advances from 4 to 200, a
delta of 196. -/
theorem requestItemWidthMin_one_shot_expansion_witness :
    (0 : ℚ) ≤ 1/2 ∧ (1/2 : ℚ) ≤ 1 ∧
      (addCursorHorizontalDelta
        (RequestItemWidthMin ⟨4, 0, 0⟩ 400 4 4 (1/2)) 50).cursorX =
        4 + 1/2 * (400 - 4 - 4) := by
  refine ⟨by norm_num, by norm_num, ?_⟩
  exact (requestItemWidthMin_one_shot_expansion ⟨4, 0, 0⟩ 400 4 4 (1/2) 50
    (by norm_num) (by norm_num) (by norm_num) (by norm_num) (by norm_num) rfl).1

/-! ## Command list (`src/unnamed/part_001`) -/

/-- The buffer fields of `cmdList` (`src/unnamed/part_001` lines 13-23) that
`AddFaces` reads and writes: the vertex attribute buffer, the element index
buffer, the face counter and the index tracker (`clipRect`, `textureID` and
the custom-draw fields are never touched by `AddFaces`). -/
structure CmdList where
  comboBuffer : List ℚ
  indexBuffer : List ℕ
  faceCount : ℕ
  indexTracker : ℕ
  deriving Repr, DecidableEq

/-- Embeds `cmdList.AddFaces` (`src/unnamed/part_001` lines 36-57): inputs
failing the sanity check (`faceCount < 1`, empty vertex data, or empty index
data) are rejected with no state change; otherwise the vertex data is
appended, each index is shifted by the current index tracker, and the face
counter and tracker advance (`uint32` arithmetic, taken mod `2^32`). -/
def AddFaces (cmds : CmdList) (comboFloats : List ℚ) (indexInts : List ℕ)
    (faceCount : ℕ) : CmdList :=
  if faceCount < 1 ∨ comboFloats = [] ∨ indexInts = [] then cmds
  else
    let startIndex := cmds.indexTracker
    let highestIndex := indexInts.foldl (fun h idx => if idx > h then idx else h) 0
    { comboBuffer := cmds.comboBuffer ++ comboFloats
      indexBuffer := cmds.indexBuffer ++ indexInts.map fun idx => (startIndex + idx) % 2 ^ 32
      faceCount := (cmds.faceCount + faceCount) % 2 ^ 32
      indexTracker := (cmds.indexTracker + highestIndex + 1) % 2 ^ 32 }

/-- C10: calling `AddFaces` with a face count below 1, an empty vertex
slice, or an empty index slice leaves the command list unchanged — vertex
buffer, index buffer, face count and index tracker all keep their prior
values. -/
theorem addFaces_rejects_degenerate_input (cmds : CmdList) (comboFloats : List ℚ)
    (indexInts : List ℕ) (faceCount : ℕ)
    (h : faceCount = 0 ∨ comboFloats = [] ∨ indexInts = []) :
    AddFaces cmds comboFloats indexInts faceCount = cmds := by
  unfold AddFaces
  have hcond : faceCount < 1 ∨ comboFloats = [] ∨ indexInts = [] := by
    rcases h with h | h | h
    · exact Or.inl (by omega)
    · exact Or.inr (Or.inl h)
    · exact Or.inr (Or.inr h)
  rw [if_pos hcond]

/-- C10 witness: a zero face count leaves a populated command list intact. -/
theorem addFaces_rejects_degenerate_input_witness :
    AddFaces ⟨[1, 2], [0, 1, 2], 1, 3⟩ [3, 4] [0, 1, 2] 0 = ⟨[1, 2], [0, 1, 2], 1, 3⟩ :=
  addFaces_rejects_degenerate_input ⟨[1, 2], [0, 1, 2], 1, 3⟩ [3, 4] [0, 1, 2] 0
    (Or.inl rfl)

end EweyGewey
